import Mathlib

/-!
Verification development for the FortiAppSec traffic-log viewer backend
(`app.py`): a Flask service that pulls NDJSON blobs from Azure Blob
Storage into a pandas DataFrame cache and serves filtered, windowed
views of it.

The Python source is shallowly embedded below.  Conventions:

* JSON scalar values are `JVal`; Python `None` / JSON `null` is `JVal.null`.
  A Python dict read from JSON is modelled as `Dict := String → Option JVal`
  (`none` = key absent, `some .null` = key present with a null value,
  matching the distinction Python makes between `k in d` and `d[k] is None`).
* External library calls that the code treats as black boxes
  (`float(str)`, `int(str)`, `datetime.fromisoformat`, `datetime.strptime`,
  `pd.to_datetime`, `json.loads`) are collected in the oracle structure
  `PyLib`; theorems quantify over the oracles.
* Instants (UTC datetimes) are rationals: seconds since the Unix epoch.
* Machine floats carry exact integers in the ranges exercised here, so
  numbers are modelled as `ℚ`.
-/

/-- A JSON scalar value / Python object as it can appear in a record field.
`dt` stands for a pandas `Timestamp` cell (only produced by the `_sort_ts`
column added during ingestion); its payload is epoch seconds. -/
inductive JVal where
  | null : JVal
  | bool (b : Bool) : JVal
  | num (q : ℚ) : JVal
  | str (s : String) : JVal
  | dt (t : ℚ) : JVal
deriving DecidableEq

/-- A parsed JSON object (one log record): association list of fields.
Python dicts have unique keys; all constructions below preserve that. -/
abbrev RecJ := List (String × JVal)

/-- Result of `json.loads` on one line: either a JSON object (a dict) or
some other JSON value (number, string, array, boolean, null). -/
inductive JTop where
  | obj (r : RecJ) : JTop
  | other : JTop
deriving DecidableEq

/-- A Python dict with JSON-scalar values (e.g. a configuration object).
`none` = key absent, `some .null` = key present holding `None`. -/
abbrev Dict := String → Option JVal

/-- External (library) functions the code calls, abstracted as oracles:
 * `strToNum s` — Python `float(s)` (`none` = raises);
 * `strToInt s` — Python `int(s)` (`none` = raises);
 * `isoLocal s` — `datetime.fromisoformat(s).astimezone(timezone.utc)`
   as epoch seconds (`none` = raises), used by `record_in_window`;
 * `isoReplace s` — `datetime.fromisoformat(s).replace(tzinfo=utc)`
   as epoch seconds (`none` = raises), used by `parse_custom_utc`;
 * `strptime16 s` — `datetime.strptime(s, "%Y-%m-%dT%H:%M")` in UTC;
 * `toDT v` — per-cell `pd.to_datetime(v, errors="coerce", utc=True)`
   (`none` = `NaT`; with `errors="coerce"` the call does not raise);
 * `decode s` — `json.loads(s)` (`none` = raises `JSONDecodeError`). -/
structure PyLib where
  strToNum : String → Option ℚ
  strToInt : String → Option ℤ
  isoLocal : String → Option ℚ
  isoReplace : String → Option ℚ
  strptime16 : String → Option ℚ
  toDT : JVal → Option ℚ
  decode : String → Option JTop

/-- Python truthiness of a JSON scalar value. -/
def truthy : JVal → Bool
  | .null => false
  | .bool b => b
  | .num q => !(decide (q = 0))
  | .str s => !(s == "")
  | .dt _ => true

/-- Python `a or b` on two values. -/
def pyOr (a b : JVal) : JVal :=
  if truthy a then a else b

/-- Python `d.get(k)`: absent keys read as `None`. -/
def pyGet (d : Dict) (k : String) : JVal :=
  (d k).getD .null

/-- Functional update of a dict (`d[k] = v`). -/
def dictSet (d : Dict) (k : String) (v : JVal) : Dict :=
  fun k' => if k' = k then some v else d k'

/-- Python `{**a, **b}`: keys of `b` win, including null-valued ones. -/
def dictMerge (a b : Dict) : Dict :=
  fun k => match b k with
    | some v => some v
    | none => a k

/-- Python `rec.get(k)` on a parsed JSON object. -/
def recGet (r : RecJ) (k : String) : Option JVal :=
  (r.find? (fun p => p.1 == k)).map (fun p => p.2)

/-- Python `rec.get(k)` collapsing absence to `None`. -/
def recPyGet (r : RecJ) (k : String) : JVal :=
  (recGet r k).getD .null

/-- Python `rec[k] = v` on a dict: overwrite if present, else append. -/
def recSet (r : RecJ) (k : String) (v : JVal) : RecJ :=
  if (recGet r k).isSome then
    r.map (fun p => if p.1 = k then (k, v) else p)
  else
    r ++ [(k, v)]

/-- Python `float(v)` on a JSON scalar (`none` = raises `TypeError` /
`ValueError`).  `float(True) = 1.0`; strings go through the oracle. -/
def pyFloat (E : PyLib) : JVal → Option ℚ
  | .null => none
  | .bool b => some (if b then 1 else 0)
  | .num q => some q
  | .str s => E.strToNum s
  | .dt _ => none

/-- Python `int(v)` on a JSON scalar (`none` = raises).  On numbers it
truncates toward zero, as `int(float)` does. -/
def pyInt (E : PyLib) : JVal → Option ℤ
  | .null => none
  | .bool b => some (if b then 1 else 0)
  | .num q => some (q.num.tdiv (q.den : ℤ))
  | .str s => E.strToInt s
  | .dt _ => none

/-- `DEFAULT_CONFIG` from `app.py` (compiled-in defaults). -/
def DEFAULT_CONFIG : Dict := fun k =>
  if k = "timezone" then some (.str "UTC")
  else if k = "AZURE_STORAGE_ACCOUNT" then some (.str "")
  else if k = "AZURE_STORAGE_KEY" then some (.str "")
  else if k = "AZURE_CONTAINER" then some (.str "")
  else if k = "fetch_range" then some (.str "last_day")
  else if k = "start_utc" then some (.str "")
  else if k = "end_utc" then some (.str "")
  else if k = "max_blobs" then some (.num 5000)
  else if k = "OUTPUT_DIR" then some (.str "./out")
  else if k = "PORT" then some (.num 8000)
  else none

/-- The persisted files the config layer touches.  Each file is
`none` when absent, `some none` when present but not a parseable JSON
object, and `some (some d)` when it parses to the dict `d`.
(The timestamped backup copies written by `write_config` never feed back
into any behaviour modelled here and are omitted.) -/
structure FS where
  cfgFile : Option (Option Dict)
  cfgDefFile : Option (Option Dict)

/-- `read_config()`: merge the parsed active file over `DEFAULT_CONFIG`;
fall back to the defaults when the file is absent or unparseable. -/
def read_config (fs : FS) : Dict :=
  match fs.cfgFile with
  | some (some c) => dictMerge DEFAULT_CONFIG c
  | some none => DEFAULT_CONFIG
  | none => DEFAULT_CONFIG

/-- `write_config(new_cfg)`: atomically persist `new_cfg` as the active
config (the pre-write backup does not affect the active file). -/
def write_config (fs : FS) (cfg : Dict) : FS :=
  { fs with cfgFile := some (some cfg) }

/-- The merged pandas DataFrame: discovered column names in order, plus
the rows (each a parsed record). -/
structure Table where
  cols : List String
  rows : List RecJ
deriving DecidableEq

/-- The module-level cache globals `DF_CACHE` / `LAST_LOAD_UTC`. -/
structure CacheSt where
  dfCache : Option Table
  lastLoad : Option ℚ
deriving DecidableEq

/-- Errors `load_logs_from_blob` can raise before or during ingestion:
`badMaxBlobs` = `int(cfg.get("max_blobs") or 0)` raised;
`missingConfig` = the `RuntimeError` for absent credentials/container;
`typeError` = tagging a non-dict decoded line raised `TypeError`. -/
inductive LoadErr where
  | badMaxBlobs
  | missingConfig
  | typeError
deriving DecidableEq

/-- The credential check shared by `ensure_loaded` (line 250) and
`load_logs_from_blob` (line 183): all three of account / key / container
must be truthy. -/
def credsOk (cfg : Dict) : Bool :=
  truthy (pyGet cfg "AZURE_STORAGE_ACCOUNT") &&
  truthy (pyGet cfg "AZURE_STORAGE_KEY") &&
  truthy (pyGet cfg "AZURE_CONTAINER")

/-- `ensure_loaded()`.  The ingestion itself is abstracted as
`load : Dict → Except LoadErr Table` (in the program this is
`load_logs_from_blob` applied to the listed container contents), and
`now` is the instant captured for `LAST_LOAD_UTC`.  Returns the new
globals, a flag recording whether an ingestion (any storage access) was
attempted, and the propagated exception if one was raised. -/
def ensure_loaded (fs : FS) (load : Dict → Except LoadErr Table) (now : ℚ)
    (s : CacheSt) : CacheSt × Bool × Option LoadErr :=
  if s.dfCache = none then
    let cfg := read_config fs
    if credsOk cfg then
      match load cfg with
      | .ok t => (⟨some t, some now⟩, true, none)
      | .error e => (s, true, some e)
    else
      (s, false, none)
  else
    (s, false, none)

/-- The `/reload` handler `reload_data()`: re-ingest unconditionally.
When `load_logs_from_blob` raises, the assignment to `DF_CACHE` never
happens, so the previous globals survive and the exception propagates. -/
def reload_data (fs : FS) (load : Dict → Except LoadErr Table) (now : ℚ)
    (s : CacheSt) : CacheSt × Option LoadErr :=
  match load (read_config fs) with
  | .ok t => (⟨some t, some now⟩, none)
  | .error e => (s, some e)

/-- Modelled from the spec: `invalidate()` — force the cache to `Empty`.
The code performs this inline as `DF_CACHE = None; LAST_LOAD_UTC = None`
(e.g. in `post_config`); the spec names it as a Cache Manager operation
to compare `/reload` against. -/
def specInvalidate (_s : CacheSt) : CacheSt :=
  ⟨none, none⟩

/-- The non-secret keys merged verbatim by `post_config`. -/
def postConfigKeys : List String :=
  ["timezone", "AZURE_STORAGE_ACCOUNT", "AZURE_CONTAINER", "fetch_range",
   "start_utc", "end_utc", "OUTPUT_DIR", "PORT"]

/-- The `POST /config` handler `post_config()`: merge the payload over the
active config (non-secret fields verbatim when present and non-null;
`max_blobs` clamped through `max(0, int(·))` with failures ignored; the
key only when submitted non-empty), persist, and clear the cache.
Returns the new filesystem, the new cache globals, and the response. -/
def post_config (E : PyLib) (fs : FS) (payload : Dict) : FS × CacheSt × Dict :=
  let current := read_config fs
  let current := postConfigKeys.foldl
    (fun c k => match payload k with
      | some v => if v = .null then c else dictSet c k v
      | none => c) current
  let current := match payload "max_blobs" with
    | some v => match pyInt E v with
      | some n => dictSet current "max_blobs" (.num ((max 0 n : ℤ) : ℚ))
      | none => current
    | none => current
  let current :=
    if truthy (pyGet payload "AZURE_STORAGE_KEY") then
      dictSet current "AZURE_STORAGE_KEY" (pyGet payload "AZURE_STORAGE_KEY")
    else current
  (write_config fs current, ⟨none, none⟩, current)

/-- The `POST /config/default` handler `post_config_default()`: only when
`config.default.json` exists and parses does it overlay the snapshot on
the defaults, persist, and clear the cache; otherwise (absent file, or
the exception path) nothing is written and the cache is untouched. -/
def post_config_default (fs : FS) (s : CacheSt) : FS × CacheSt :=
  match fs.cfgDefFile with
  | some (some d) => (write_config fs (dictMerge DEFAULT_CONFIG d), ⟨none, none⟩)
  | some none => (fs, s)
  | none => (fs, s)

/-- One listed blob: its name, its storage-reported last-modified time
already rendered as an ISO-8601 UTC string (`none` when the service
reports none), and its downloaded content split into lines (the
UTF-8 decode with `errors="ignore"` and the `StringIO` line split are
external; each element is one line, newline terminators removed as
`line.strip()` would remove them anyway). -/
structure Blob where
  name : String
  lastModifiedIso : Option String
  content : List String
deriving DecidableEq

/-- Python `line.strip()`: drop leading and trailing whitespace
(space, tab, CR, LF — the characters that occur in NDJSON payloads).
Implemented over the character list so that concrete runs reduce. -/
def pyStrip (s : String) : String :=
  ⟨((s.data.dropWhile Char.isWhitespace).reverse.dropWhile Char.isWhitespace).reverse⟩

/-- Python `s.lower()` (ASCII case folding suffices for the range
keywords involved), over the character list. -/
def pyLower (s : String) : String :=
  ⟨s.data.map Char.toLower⟩

/-- The trailing-comma normalization of the parse loop:
`if line.endswith(","): line = line[:-1]` (a single comma only). -/
def stripTrailingComma (s : String) : String :=
  if s.data.getLast? = some ',' then ⟨s.data.dropLast⟩ else s

/-- The `_blob_last_modified` value taken from a blob. -/
def blobLM (b : Blob) : JVal :=
  match b.lastModifiedIso with
  | some s => .str s
  | none => .null

/-- The per-line body of the parse loop in `load_logs_from_blob`
(lines 203–212): strip, skip empty lines, drop one trailing comma,
decode; `none` = the line was skipped (empty or `json.loads` raised). -/
def procLine (E : PyLib) (line : String) : Option JTop :=
  let l := pyStrip line
  if l == "" then none
  else E.decode (stripTrailingComma l)

/-- The parse loop over one blob's lines (lines 203–218).  Each decoded
object is tagged with `_blob_name` and `_blob_last_modified`.  A line
whose decode succeeds but yields a non-dict raises `TypeError` at the
`rec["_blob_name"] = ...` assignment, which is outside the
`try/except` and therefore aborts the whole ingestion. -/
def ingestLines (E : PyLib) (bn : String) (lm : JVal) :
    List String → Except Unit (List RecJ)
  | [] => .ok []
  | line :: rest =>
    match procLine E line with
    | none => ingestLines E bn lm rest
    | some (.obj rec) =>
      match ingestLines E bn lm rest with
      | .ok rs => .ok (recSet (recSet rec "_blob_name" (.str bn)) "_blob_last_modified" lm :: rs)
      | .error e => .error e
    | some .other => .error ()

/-- The blob loop of `load_logs_from_blob` (line 200), concatenating the
rows of every processed blob in listing order. -/
def ingestBlobs (E : PyLib) : List Blob → Except Unit (List RecJ)
  | [] => .ok []
  | b :: rest =>
    match ingestLines E b.name (blobLM b) b.content with
    | .error e => .error e
    | .ok rs =>
      match ingestBlobs E rest with
      | .error e => .error e
      | .ok rs2 => .ok (rs ++ rs2)

/-- One step of column discovery: append the keys of a row that have
not been seen yet, in order. -/
def insertKeys (acc : List String) (r : RecJ) : List String :=
  r.foldl (fun a p => if p.1 ∈ a then a else a ++ [p.1]) acc

/-- Column discovery of `pd.DataFrame(rows)`: the union of the keys of
all rows, in first-seen order. -/
def colsOf (rows : List RecJ) : List String :=
  rows.foldl insertKeys []

/-- The candidate time fields scanned in priority order (line 225). -/
def tsCandidates : List String :=
  ["ts", "timestamp", "@timestamp", "time", "event_time"]

/-- A `pd.to_datetime` result as a `_sort_ts` cell: a timestamp, or
`NaT` (modelled as null, which also serialises as null). -/
def dtCell : Option ℚ → JVal
  | some t => .dt t
  | none => .null

/-- The `_sort_ts` sort key of a row (`NaT`/missing = `none`). -/
def sortKeyOf (r : RecJ) : Option ℚ :=
  match recPyGet r "_sort_ts" with
  | .dt t => some t
  | _ => none

/-- Ascending order on sort keys with `na_position="last"`. -/
def tsLe : Option ℚ → Option ℚ → Bool
  | none, none => true
  | some _, none => true
  | none, some _ => false
  | some x, some y => decide (x ≤ y)

/-- Ordered insertion used to model the row sort. -/
def insertSorted (le : RecJ → RecJ → Bool) (r : RecJ) : List RecJ → List RecJ
  | [] => [r]
  | x :: xs => if le r x then r :: x :: xs else x :: insertSorted le r xs

/-- `df.sort_values("_sort_ts", na_position="last")`: ascending by
`_sort_ts` with missing values last.  (pandas' default quicksort leaves
the order among equal keys unspecified; an insertion sort is used as the
deterministic representative — no claim depends on row order, only on
the row multiset / count, which any sort preserves.) -/
def sortRows (rows : List RecJ) : List RecJ :=
  rows.foldr (insertSorted (fun a b => tsLe (sortKeyOf a) (sortKeyOf b))) []

/-- Lines 220–242: build the DataFrame from the merged rows; when it is
non-empty, scan `tsCandidates` for the first one among the columns, add
the coerced `_sort_ts` column and sort by it.  The snapshot export to
`OUTPUT_DIR` (CSV/parquet) only writes external files, never feeds back,
and its failures are swallowed; it is omitted. -/
def buildTable (E : PyLib) (rows : List RecJ) : Table :=
  if rows.isEmpty then ⟨[], []⟩
  else
    let cols := colsOf rows
    match tsCandidates.find? (fun c => cols.contains c) with
    | none => ⟨cols, rows⟩
    | some c =>
      let rows2 := rows.map (fun r => recSet r "_sort_ts" (dtCell (E.toDT (recPyGet r c))))
      let cols2 := if cols.contains "_sort_ts" then cols else cols ++ ["_sort_ts"]
      ⟨cols2, sortRows rows2⟩

/-- `load_logs_from_blob(cfg)` (lines 173–244).  The storage service is
abstracted as the listed `blobs` (listing order, contents downloaded);
`max_blobs = int(cfg.get("max_blobs") or 0)` runs before the credential
check; `max_blobs > 0` keeps only the first `max_blobs` blobs. -/
def load_logs_from_blob (E : PyLib) (blobs : List Blob) (cfg : Dict) :
    Except LoadErr Table :=
  match pyInt E (pyOr (pyGet cfg "max_blobs") (.num 0)) with
  | none => .error .badMaxBlobs
  | some mb =>
    if credsOk cfg then
      let blobs := if mb > 0 then blobs.take mb.toNat else blobs
      match ingestBlobs E blobs with
      | .error _ => .error .typeError
      | .ok rows => .ok (buildTable E rows)
    else
      .error .missingConfig

/-- `datetime.fromtimestamp` accepts exactly the instants representable
as a `datetime` (year 1 to 9999): the lower bound is
0001-01-01T00:00:00Z and the upper bound 9999-12-31T23:59:59.999999Z;
outside it raises, which the caller's `except` turns into fail-open. -/
def TS_MIN : ℚ := -62135596800

/-- Upper bound (exclusive, up to the last representable microsecond)
of `datetime.fromtimestamp`. -/
def TS_MAX : ℚ := 253402300800

/-- `datetime.fromtimestamp(t, tz=timezone.utc)`:
`none` = raises (overflow / out of `datetime` range). -/
def pyFromTimestamp (t : ℚ) : Option ℚ :=
  if TS_MIN ≤ t ∧ t < TS_MAX then some t else none

/-- Lines 287–291: `if start and t < start: False`;
`if end and t > end: False`; else `True`. -/
def windowTest (t : ℚ) : Option ℚ → Option ℚ → Bool
  | some s0, some e0 => !(decide (t < s0)) && !(decide (t > e0))
  | some s0, none => !(decide (t < s0))
  | none, some e0 => !(decide (t > e0))
  | none, none => true

/-- The per-value body of `record_in_window` (lines 274–291), factored
out for proofs: a `None` value includes; then `float(ts)` with the
`>1e12` milliseconds heuristic and `fromtimestamp`; on any failure there
(the whole arithmetic sits in one `try`), `fromisoformat(str(ts))` —
only a string can parse, as `str()` of numbers or booleans is never
ISO-shaped; and if that also fails, include (fail-open). -/
def tsDecision (E : PyLib) (ts : JVal) (start e : Option ℚ) : Bool :=
  if ts = .null then true
  else
    let viaNum :=
      match pyFloat E ts with
      | some q => pyFromTimestamp ((if q > 1000000000000 then q else q * 1000) / 1000)
      | none => none
    match viaNum with
    | some t => windowTest t start e
    | none =>
      let viaIso :=
        match ts with
        | .str s => E.isoLocal s
        | _ => none
      match viaIso with
      | some t => windowTest t start e
      | none => true

/-- `record_in_window(rec, start, end)` (lines 271–276): no bounds means
include; pick `log_timestamp or _blob_last_modified` and hand the value
to `tsDecision`. -/
def record_in_window (E : PyLib) (rec : RecJ) (start e : Option ℚ) : Bool :=
  if start = none ∧ e = none then true
  else
    tsDecision E (pyOr (recPyGet rec "log_timestamp") (recPyGet rec "_blob_last_modified")) start e

/-- `parse_custom_utc(ts)` (lines 260–269): falsy input gives no bound;
a 16-character string goes through `strptime("%Y-%m-%dT%H:%M")`, other
strings through `fromisoformat` reinterpreted as UTC; a truthy
non-string raises inside the `try` (`len()` of a non-string) and yields
no bound. -/
def parse_custom_utc (E : PyLib) (v : JVal) : Option ℚ :=
  if truthy v then
    match v with
    | .str s => if s.length = 16 then E.strptime16 s else E.isoReplace s
    | _ => none
  else none

/-- `(cfg.get("fetch_range") or "unlimited").lower()` (line 294):
`none` = `.lower()` raised on a truthy non-string. -/
def rngOf (cfg : Dict) : Option String :=
  match pyOr (pyGet cfg "fetch_range") (.str "unlimited") with
  | .str s => some (pyLower s)
  | _ => none

/-- The start/end bounds derived from the range policy (lines 295–307);
durations in seconds (`timedelta(days=30)` for a month). -/
def windowBounds (E : PyLib) (now : ℚ) (cfg : Dict) (rng : String) :
    Option ℚ × Option ℚ :=
  if rng = "last_hour" then (some (now - 3600), some now)
  else if rng = "last_day" then (some (now - 86400), some now)
  else if rng = "last_week" then (some (now - 604800), some now)
  else if rng = "last_month" then (some (now - 2592000), some now)
  else if rng = "custom" then
    (parse_custom_utc E (pyGet cfg "start_utc"), parse_custom_utc E (pyGet cfg "end_utc"))
  else (none, none)

/-- `apply_window_and_limit_records(records, cfg)` (lines 293–320):
filter by the policy window when one exists, then apply `max_blobs` as a
prefix cap when positive (`int` failures leave the cap at 0 = no cap).
`none` = the handler raised (non-string `fetch_range`). -/
def apply_window_and_limit_records (E : PyLib) (now : ℚ)
    (records : List RecJ) (cfg : Dict) : Option (List RecJ) :=
  match rngOf cfg with
  | none => none
  | some rng =>
    let b := windowBounds E now cfg rng
    let records :=
      if b.1.isSome || b.2.isSome then
        records.filter (fun r => record_in_window E r b.1 b.2)
      else records
    let mb : ℤ :=
      match pyInt E (pyOr (pyGet cfg "max_blobs") (.num 0)) with
      | some n => n
      | none => 0
    some (if mb > 0 ∧ (records.length : ℤ) > mb then records.take mb.toNat else records)

/-- The `preferred` column list of the `/data`, `/data.csv` and
`/data.json` handlers. -/
def preferredCols : List String :=
  ["http_host", "status", "srccountry", "user_name", "http_agent",
   "_blob_last_modified", "_blob_name"]

/-- `pref_present = [c for c in preferred if c in DF_CACHE.columns]`. -/
def prefPresent (cols : List String) : List String :=
  preferredCols.filter (fun c => cols.contains c)

/-- `cols = pref_present + [c for c in DF_CACHE.columns if c not in pref_present]`. -/
def projCols (cols : List String) : List String :=
  prefPresent cols ++ cols.filter (fun c => !((prefPresent cols).contains c))

/-- The column list served by `/data` (line 469 caps it at 200). -/
def servedCols (t : Table) : List String :=
  (projCols t.cols).take 200

/-- The column list used by the `/data.csv` and `/data.json` bulk
exports (no cap). -/
def exportCols (t : Table) : List String :=
  projCols t.cols

/-- The condition a field value must violate for the fail-open path of
`record_in_window`: the value is `None`/absent, or it is a string that
neither `float()` nor `fromisoformat()` accepts.  (Numbers and booleans
always convert via `float()`.) -/
def unparseable (E : PyLib) : JVal → Prop
  | .null => True
  | .str s => E.strToNum s = none ∧ E.isoLocal s = none
  | _ => False

/-- Oracle instance in which every external parser fails / every decode
fails: used to evaluate concrete scenarios that never reach them. -/
def oracleNone : PyLib :=
  ⟨fun _ => none, fun _ => none, fun _ => none, fun _ => none,
   fun _ => none, fun _ => none, fun _ => none⟩

/-- A persisted config supplying the three credential fields only. -/
def cfgCreds : Dict := fun k =>
  if k = "AZURE_STORAGE_ACCOUNT" then some (.str "acct")
  else if k = "AZURE_STORAGE_KEY" then some (.str "key0")
  else if k = "AZURE_CONTAINER" then some (.str "logs")
  else none

/-- Filesystem with no config files at all (first run, no `.env`). -/
def fsAbsent : FS := ⟨none, none⟩

/-- Filesystem with an active config carrying credentials and no
default snapshot. -/
def fsCreds : FS := ⟨some (some cfgCreds), none⟩

/-- Filesystem with both the active config and the default snapshot. -/
def fsCredsDef : FS := ⟨some (some cfgCreds), some (some cfgCreds)⟩

/-- A one-row cached table. -/
def tbl1 : Table := ⟨["a"], [[("a", .num 1)]]⟩

/-- An ingestion that succeeds with `tbl1`. -/
def loadOk : Dict → Except LoadErr Table := fun _ => .ok tbl1

/-- An ingestion that fails (e.g. a listing/auth error). -/
def loadFail : Dict → Except LoadErr Table := fun _ => .error .typeError

/-- Cache globals in the `Loaded` state. -/
def stLoaded : CacheSt := ⟨some tbl1, some 0⟩

/-- An empty POST payload. -/
def payloadNone : Dict := fun _ => none

/-- `json.loads` behaviour on the ten-line fixture: seven object lines
(one of which appears in the blob with a trailing comma) and three
truncated, invalid lines. -/
def fixtureDecode : String → Option JTop := fun s =>
  if s = "\x7b\"n\": 1\x7d" then some (.obj [("n", .num 1)])
  else if s = "\x7b\"n\": 2\x7d" then some (.obj [("n", .num 2)])
  else if s = "\x7b\"n\": 3\x7d" then some (.obj [("n", .num 3)])
  else if s = "\x7b\"n\": 4\x7d" then some (.obj [("n", .num 4)])
  else if s = "\x7b\"n\": 5\x7d" then some (.obj [("n", .num 5)])
  else if s = "\x7b\"n\": 6\x7d" then some (.obj [("n", .num 6)])
  else if s = "\x7b\"n\": 7\x7d" then some (.obj [("n", .num 7)])
  else none

/-- Oracles for the ten-line fixture. -/
def oracleFixture : PyLib := { oracleNone with decode := fixtureDecode }

/-- Ten lines: six plain valid objects, one valid object with a trailing
comma, three truncated (invalid JSON) lines. -/
def linesTen : List String :=
  ["\x7b\"n\": 1\x7d", "\x7b\"n\": 2\x7d", "\x7b\"n\": 3\x7d",
   "\x7b\"n\": 4\x7d", "\x7b\"n\": 5\x7d", "\x7b\"n\": 6\x7d",
   "\x7b\"n\": 7\x7d,", "\x7b\"n\": 8", "\x7b\"n\": 9", "\x7b\"n\": 10"]

/-- A blob holding the ten-line fixture. -/
def blobTen : Blob := ⟨"blob-1", none, linesTen⟩

/-- Oracles under which `json.loads("5")` succeeds with a non-object
value (as it does: it returns the integer 5). -/
def oracleScalar : PyLib :=
  { oracleNone with decode := fun s => if s = "5" then some .other else none }

/-- A blob whose single line is the valid JSON scalar `5`. -/
def blobScalar : Blob := ⟨"blob-s", none, ["5"]⟩

/-- A single ingested row with 200 distinct keys, `ts` first: enough for
the `/data` 200-column cap to cut the trailing `_sort_ts` column.  The
199 filler keys are distinct one-character names. -/
def wideRec : RecJ :=
  ("ts", .num 1) :: (List.range 199).map (fun i => (String.mk [Char.ofNat (161 + i)], JVal.null))

/-- The one-row wide ingestion result. -/
def wideRows : List RecJ := [wideRec]

/-- Helper: `ensure_loaded` is a no-op (no storage access, no error, no
state change) whenever the cache already holds a DataFrame. -/
theorem ensure_loaded_of_loaded (fs : FS) (load : Dict → Except LoadErr Table)
    (now : ℚ) (s : CacheSt) (t : Table) (h : s.dfCache = some t) :
    ensure_loaded fs load now s = (s, false, none) := by
  rw [ensure_loaded, if_neg]
  simp [h]

/-- C1 counterexample: with no configuration at all (every credential
field empty), `ensure_loaded` on an empty cache leaves the cache `Empty`
and attempts no storage access — but it returns silently (error
component `none`), whereas the claim requires a ConfigurationError to be
raised to the caller.  (The `RuntimeError` at line 184 lives in
`load_logs_from_blob`, which `ensure_loaded` never reaches on this
path: line 252 just logs a warning and returns.) -/
theorem c1_counterexample :
    credsOk (read_config fsAbsent) = false ∧
    ensure_loaded fsAbsent loadOk 0 ⟨none, none⟩ = (⟨none, none⟩, false, none) :=
  ⟨rfl, rfl⟩

/-- C1 amended: for every configuration in which at least one of the
storage account, storage key, or container fields is empty or absent,
`ensure_loaded` on an `Empty` cache leaves the cache `Empty` and
attempts no storage list or download call, but it returns silently
(logging a warning) instead of raising an error. -/
theorem c1_amended (fs : FS) (load : Dict → Except LoadErr Table) (now : ℚ)
    (s : CacheSt) (h1 : s.dfCache = none)
    (h2 : credsOk (read_config fs) = false) :
    ensure_loaded fs load now s = (s, false, none) := by
  rw [ensure_loaded, if_pos h1, if_neg]
  simp [h2]

/-- C1 amended, witness at a concrete input. -/
theorem c1_amended_witness :
    ensure_loaded fsAbsent loadFail 3 ⟨none, some 1⟩ = (⟨none, some 1⟩, false, none) :=
  c1_amended fsAbsent loadFail 3 ⟨none, some 1⟩ rfl rfl

/-- C2 counterexample: starting from a `Loaded` cache, when the
ingestion fails the `/reload` handler keeps the previous cache contents
(the assignment to `DF_CACHE` never executes) and the error propagates,
whereas invalidate-then-`ensure_loaded` leaves the cache `Empty` — so
the claimed observational equivalence fails on the failure path. -/
theorem c2_counterexample :
    (reload_data fsCreds loadFail 5 stLoaded).1.dfCache = some tbl1 ∧
    (reload_data fsCreds loadFail 5 stLoaded).2 = some .typeError ∧
    (ensure_loaded fsCreds loadFail 5 (specInvalidate stLoaded)).1.dfCache = none :=
  ⟨rfl, rfl, rfl⟩

/-- C2 amended: `/reload` always performs a fresh ingestion, even when
the cache is already `Loaded`; on success (under a complete credential
configuration) its resulting state coincides with invalidate followed by
`ensure_loaded`; but on ingestion failure it leaves the previous cache
state untouched (the old `Loaded` contents survive) and propagates the
error, unlike invalidate-then-failed-load, which would leave `Empty`. -/
theorem c2_amended (fs : FS) (load : Dict → Except LoadErr Table) (now : ℚ)
    (s : CacheSt) :
    (∀ t, credsOk (read_config fs) = true → load (read_config fs) = .ok t →
      reload_data fs load now s = (⟨some t, some now⟩, none) ∧
      (reload_data fs load now s).1 =
        (ensure_loaded fs load now (specInvalidate s)).1) ∧
    (∀ e, load (read_config fs) = .error e →
      reload_data fs load now s = (s, some e)) := by
  constructor
  · intro t hc hl
    constructor
    · simp [reload_data, hl]
    · simp [reload_data, ensure_loaded, specInvalidate, hl, hc]
  · intro e hl
    simp [reload_data, hl]

/-- C2 amended, witness at a concrete input. -/
theorem c2_amended_witness :
    reload_data fsCreds loadOk 7 stLoaded = (⟨some tbl1, some 7⟩, none) ∧
    (reload_data fsCreds loadOk 7 stLoaded).1 =
      (ensure_loaded fsCreds loadOk 7 (specInvalidate stLoaded)).1 :=
  (c2_amended fsCreds loadOk 7 stLoaded).1 tbl1 rfl rfl

/-- C5 counterexample: a default-restore request issued while
`config.default.json` is absent performs no write and leaves the cache
in its previous `Loaded` state, contradicting the claim that every
default-restore operation sets the cache to `Empty`. -/
theorem c5_counterexample :
    fsCreds.cfgDefFile = none ∧
    (post_config_default fsCreds stLoaded).2 = stLoaded ∧
    (post_config_default fsCreds stLoaded).2.dfCache = some tbl1 :=
  ⟨rfl, rfl, rfl⟩

/-- C5 amended: every configuration write through `POST /config` sets
the cache to `Empty` (`DF_CACHE` and the load timestamp become `None`),
and so does every default-restore for which the default snapshot file
exists and parses; a default-restore without a usable snapshot leaves
both the config and the cache untouched. -/
theorem c5_amended (E : PyLib) (fs : FS) (payload : Dict) (s : CacheSt) :
    (post_config E fs payload).2.1 = (⟨none, none⟩ : CacheSt) ∧
    (∀ d, fs.cfgDefFile = some (some d) →
      (post_config_default fs s).2 = (⟨none, none⟩ : CacheSt)) := by
  constructor
  · rfl
  · intro d hd
    simp [post_config_default, hd]

/-- C5 amended, witness at a concrete input. -/
theorem c5_amended_witness :
    (post_config oracleNone fsCreds payloadNone).2.1 = (⟨none, none⟩ : CacheSt) ∧
    (post_config_default fsCredsDef stLoaded).2 = (⟨none, none⟩ : CacheSt) :=
  ⟨(c5_amended oracleNone fsCreds payloadNone stLoaded).1,
   (c5_amended oracleNone fsCredsDef payloadNone stLoaded).2 cfgCreds rfl⟩

/-- C8: writing a configuration and reading it back yields exactly the
written dict merged over the compiled-in defaults: every key present in
the written config takes its value (null-valued keys included), every
absent key falls back to `DEFAULT_CONFIG`. -/
theorem c8_write_read_roundtrip (fs : FS) (cfg : Dict) (k : String) :
    read_config (write_config fs cfg) k =
      match cfg k with
      | some v => some v
      | none => DEFAULT_CONFIG k := rfl

/-- C9: once a call to `ensure_loaded` has populated the cache, a second
call — under any filesystem state, ingestion behaviour and clock —
returns the state unchanged, performs no storage access (flag `false`)
and raises nothing: at most one full ingestion pass happens. -/
theorem c9_ensure_loaded_idempotent (fs fs2 : FS)
    (load load2 : Dict → Except LoadErr Table) (now now2 : ℚ)
    (s : CacheSt) (t : Table)
    (h : (ensure_loaded fs load now s).1.dfCache = some t) :
    ensure_loaded fs2 load2 now2 (ensure_loaded fs load now s).1 =
      ((ensure_loaded fs load now s).1, false, none) :=
  ensure_loaded_of_loaded fs2 load2 now2 _ t h

/-- C9 witness at a concrete input. -/
theorem c9_witness :
    ensure_loaded fsAbsent loadFail 9 (ensure_loaded fsCreds loadOk 2 ⟨none, none⟩).1 =
      ((ensure_loaded fsCreds loadOk 2 ⟨none, none⟩).1, false, none) :=
  c9_ensure_loaded_idempotent fsCreds fsAbsent loadOk loadFail 2 9 ⟨none, none⟩ tbl1 rfl

/-- Helper: the per-value window decision is `true` (include) whenever
the selected value is null or a string rejected by both parsers. -/
theorem tsDecision_unparseable (E : PyLib) (start e : Option ℚ) (v : JVal)
    (h : unparseable E v) : tsDecision E v start e = true := by
  cases v with
  | null => rfl
  | bool b => exact h.elim
  | num q => exact h.elim
  | dt t => exact h.elim
  | str s =>
    obtain ⟨hn, hi⟩ := h
    simp [tsDecision, pyFloat, hn, hi]

/-- C4: for every record and every window, if both the primary
`log_timestamp` field and the fallback `_blob_last_modified` field are
unparseable (absent/null, or strings that neither `float()` nor
`fromisoformat()` accepts), `record_in_window` returns `true`: the
record is included in every window — fail-open, under every
`fetch_range` policy, since those only vary the bounds. -/
theorem c4_fail_open (E : PyLib) (rec : RecJ) (start e : Option ℚ)
    (h1 : unparseable E (recPyGet rec "log_timestamp"))
    (h2 : unparseable E (recPyGet rec "_blob_last_modified")) :
    record_in_window E rec start e = true := by
  rw [record_in_window]
  by_cases hse : start = none ∧ e = none
  · rw [if_pos hse]
  · rw [if_neg hse, pyOr]
    by_cases ht : truthy (recPyGet rec "log_timestamp")
    · rw [if_pos ht]
      exact tsDecision_unparseable E start e _ h1
    · rw [if_neg ht]
      exact tsDecision_unparseable E start e _ h2

/-- C4 witness at a concrete garbage-timestamp record. -/
theorem c4_witness :
    unparseable oracleNone (recPyGet [("log_timestamp", JVal.str "garbage")] "log_timestamp") ∧
    unparseable oracleNone (recPyGet [("log_timestamp", JVal.str "garbage")] "_blob_last_modified") ∧
    record_in_window oracleNone [("log_timestamp", JVal.str "garbage")] (some 0) (some 60) = true :=
  ⟨⟨rfl, rfl⟩, trivial,
   c4_fail_open oracleNone [("log_timestamp", JVal.str "garbage")] (some 0) (some 60)
     ⟨rfl, rfl⟩ trivial⟩

/-- Helper: on a record whose `log_timestamp` is a nonzero number whose
resolved instant is representable, `record_in_window` compares exactly
the instant given by the milliseconds heuristic. -/
theorem record_in_window_num (E : PyLib) (start e : Option ℚ) (q : ℚ)
    (hq : q ≠ 0)
    (hlo : TS_MIN ≤ (if q > 1000000000000 then q else q * 1000) / 1000)
    (hhi : (if q > 1000000000000 then q else q * 1000) / 1000 < TS_MAX) :
    record_in_window E [("log_timestamp", JVal.num q)] start e =
      windowTest ((if q > 1000000000000 then q else q * 1000) / 1000) start e := by
  rw [record_in_window]
  by_cases hse : start = none ∧ e = none
  · obtain ⟨h1, h2⟩ := hse
    subst h1; subst h2
    rw [if_pos ⟨rfl, rfl⟩]
    rfl
  · rw [if_neg hse]
    have hts : pyOr (recPyGet [("log_timestamp", JVal.num q)] "log_timestamp")
        (recPyGet [("log_timestamp", JVal.num q)] "_blob_last_modified") = JVal.num q := by
      simp [pyOr, recPyGet, recGet, truthy, hq]
    rw [hts, tsDecision, if_neg (by simp)]
    simp [pyFloat, pyFromTimestamp, hlo, hhi]
    intro s hcon
    exact JVal.noConfusion hcon

/-- C6 counterexample: the numeric timestamp value `0` is falsy, so the
`or`-fallback skips it and `record_in_window` includes the record in
every window; but the claimed interpretation (0 seconds → epoch 0)
would exclude it from the window [10, 20].  The claim's universal
statement over every numeric value therefore fails at 0. -/
theorem c6_counterexample :
    record_in_window oracleNone [("log_timestamp", JVal.num 0)] (some 10) (some 20) = true ∧
    windowTest ((if (0 : ℚ) > 1000000000000 then (0 : ℚ) else 0 * 1000) / 1000)
      (some 10) (some 20) = false := by
  refine ⟨rfl, ?_⟩
  have h0 : ((if (0 : ℚ) > 1000000000000 then (0 : ℚ) else 0 * 1000) / 1000) = 0 := by
    norm_num
  rw [h0]
  decide

/-- C6 amended: for every truthy (nonzero) numeric timestamp value whose
resolved instant is representable as a `datetime` (year 1–9999), the
window filter treats a value strictly greater than 10^12 as milliseconds
and otherwise scales it by 1000, comparing the resulting instant against
the window; consequently 1700000000 and 1700000000000 resolve to the
same instant and filter identically under every window.  (A zero value
is falsy and falls through to the fallback field / fail-open inclusion;
an out-of-range instant makes `fromtimestamp` raise, which also ends in
fail-open inclusion.) -/
theorem c6_amended :
    (∀ (E : PyLib) (start e : Option ℚ) (q : ℚ), q ≠ 0 →
      TS_MIN ≤ (if q > 1000000000000 then q else q * 1000) / 1000 →
      (if q > 1000000000000 then q else q * 1000) / 1000 < TS_MAX →
      record_in_window E [("log_timestamp", JVal.num q)] start e =
        windowTest ((if q > 1000000000000 then q else q * 1000) / 1000) start e) ∧
    (∀ (E : PyLib) (start e : Option ℚ),
      record_in_window E [("log_timestamp", JVal.num 1700000000)] start e =
        record_in_window E [("log_timestamp", JVal.num 1700000000000)] start e) := by
  constructor
  · exact record_in_window_num
  · intro E start e
    have e1 : ((if (1700000000 : ℚ) > 1000000000000 then (1700000000 : ℚ)
        else 1700000000 * 1000) / 1000) = 1700000000 := by norm_num
    have e2 : ((if (1700000000000 : ℚ) > 1000000000000 then (1700000000000 : ℚ)
        else 1700000000000 * 1000) / 1000) = 1700000000 := by norm_num
    rw [record_in_window_num E start e 1700000000 (by norm_num)
          (by rw [e1]; norm_num [TS_MIN]) (by rw [e1]; norm_num [TS_MAX]),
        record_in_window_num E start e 1700000000000 (by norm_num)
          (by rw [e2]; norm_num [TS_MIN]) (by rw [e2]; norm_num [TS_MAX]),
        e1, e2]

/-- C6 amended, witness at a concrete input. -/
theorem c6_amended_witness :
    record_in_window oracleNone [("log_timestamp", JVal.num 1700000000)]
        (some 0) (some 2000000000) =
      windowTest ((if (1700000000 : ℚ) > 1000000000000 then (1700000000 : ℚ)
        else 1700000000 * 1000) / 1000) (some 0) (some 2000000000) :=
  c6_amended.1 oracleNone (some 0) (some 2000000000) 1700000000 (by norm_num)
    (by norm_num [TS_MIN]) (by norm_num [TS_MAX])

/-- Helper: when no decoded line is a non-object JSON value, the parse
loop succeeds and produces exactly one row per non-empty line whose
decode succeeds (after the trailing-comma strip). -/
theorem ingestLines_count (E : PyLib) (bn : String) (lm : JVal) (lines : List String)
    (h : ∀ l ∈ lines, pyStrip l ≠ "" →
      E.decode (stripTrailingComma (pyStrip l)) ≠ some JTop.other) :
    ∃ rs, ingestLines E bn lm lines = .ok rs ∧
      rs.length = lines.countP
        (fun l => !(pyStrip l == "") && (E.decode (stripTrailingComma (pyStrip l))).isSome) := by
  induction lines with
  | nil => exact ⟨[], rfl, rfl⟩
  | cons line rest ih =>
    obtain ⟨rs, hok, hlen⟩ := ih (fun l hl => h l (List.mem_cons_of_mem _ hl))
    by_cases he : pyStrip line = ""
    · refine ⟨rs, ?_, ?_⟩
      · simp [ingestLines, procLine, he, hok]
      · rw [List.countP_cons]; simp [he, hlen]
    · cases hd : E.decode (stripTrailingComma (pyStrip line)) with
      | none =>
        refine ⟨rs, ?_, ?_⟩
        · simp [ingestLines, procLine, he, hd, hok]
        · rw [List.countP_cons]; simp [he, hd, hlen]
      | some jt =>
        cases jt with
        | obj r =>
          refine ⟨recSet (recSet r "_blob_name" (.str bn)) "_blob_last_modified" lm :: rs,
            ?_, ?_⟩
          · simp [ingestLines, procLine, he, hd, hok]
          · rw [List.countP_cons]; simp [he, hd, hlen]
        | other => exact absurd hd (h line (List.mem_cons_self _ _) he)

/-- C3 counterexample: the line `5` is valid JSON (it decodes
successfully to the integer 5, a non-object), yet ingestion raises —
the `rec["_blob_name"] = ...` tagging outside the `try` hits a
`TypeError` and aborts the whole load — contradicting the claim that
the merged row count always equals the number of non-empty successfully
decoded lines with no error raised. -/
theorem c3_counterexample :
    (oracleScalar.decode "5").isSome = true ∧
    load_logs_from_blob oracleScalar [blobScalar] cfgCreds = .error .typeError :=
  ⟨rfl, rfl⟩

/-- C3 amended: the parse loop skips empty (after strip) lines, removes
a single trailing comma before decoding, silently skips lines whose
decode raises, and — provided every successfully decoded line is a JSON
object — the merged row count equals exactly the number of non-empty
lines that successfully decoded; a line decoding to a non-object value
instead aborts the whole ingestion with a `TypeError`.  In particular
the ten-line fixture (six plain valid objects, one trailing-comma
object, three invalid lines) yields 7 rows and no error. -/
theorem c3_amended :
    (∀ (E : PyLib) (bn : String) (lm : JVal) (lines : List String),
      (∀ l ∈ lines, pyStrip l ≠ "" →
        E.decode (stripTrailingComma (pyStrip l)) ≠ some JTop.other) →
      ∃ rs, ingestLines E bn lm lines = .ok rs ∧
        rs.length = lines.countP
          (fun l => !(pyStrip l == "") && (E.decode (stripTrailingComma (pyStrip l))).isSome)) ∧
    linesTen.length = 10 ∧
    (load_logs_from_blob oracleFixture [blobTen] cfgCreds).map (fun t => t.rows.length) =
      .ok 7 :=
  ⟨ingestLines_count, rfl, rfl⟩

/-- C3 amended, witness at a concrete two-line input. -/
theorem c3_amended_witness :
    ∃ rs, ingestLines oracleFixture "b" JVal.null ["x,", ""] = .ok rs ∧
      rs.length = (["x,", ""] : List String).countP
        (fun l => !(pyStrip l == "") &&
          (oracleFixture.decode (stripTrailingComma (pyStrip l))).isSome) :=
  c3_amended.1 oracleFixture "b" JVal.null ["x,", ""] (by decide)

/-- Helper: reading the key just set. -/
theorem pyGet_dictSet_self (d : Dict) (k : String) (v : JVal) :
    pyGet (dictSet d k v) k = v := by
  simp [pyGet, dictSet]

/-- Helper: reading an unrelated key after a set. -/
theorem pyGet_dictSet_ne (d : Dict) (k k' : String) (v : JVal) (h : k ≠ k') :
    pyGet (dictSet d k' v) k = pyGet d k := by
  simp [pyGet, dictSet, h]

/-- Helper: updating `max_blobs` does not change the fetch-range key. -/
theorem rngOf_dictSet_mb (cfg : Dict) (v : JVal) :
    rngOf (dictSet cfg "max_blobs" v) = rngOf cfg := by
  rw [rngOf, rngOf, pyGet_dictSet_ne cfg "fetch_range" "max_blobs" v (by decide)]

/-- Helper: updating `max_blobs` does not change the window bounds. -/
theorem windowBounds_dictSet_mb (E : PyLib) (now : ℚ) (cfg : Dict) (v : JVal)
    (rng : String) :
    windowBounds E now (dictSet cfg "max_blobs" v) rng = windowBounds E now cfg rng := by
  rw [windowBounds, windowBounds,
    pyGet_dictSet_ne cfg "start_utc" "max_blobs" v (by decide),
    pyGet_dictSet_ne cfg "end_utc" "max_blobs" v (by decide)]

/-- Helper: updating `max_blobs` does not change the credential check. -/
theorem credsOk_dictSet_mb (cfg : Dict) (v : JVal) :
    credsOk (dictSet cfg "max_blobs" v) = credsOk cfg := by
  rw [credsOk, credsOk,
    pyGet_dictSet_ne cfg "AZURE_STORAGE_ACCOUNT" "max_blobs" v (by decide),
    pyGet_dictSet_ne cfg "AZURE_STORAGE_KEY" "max_blobs" v (by decide),
    pyGet_dictSet_ne cfg "AZURE_CONTAINER" "max_blobs" v (by decide)]

/-- Helper: the `int(cfg.get("max_blobs") or 0)` computation at 0. -/
theorem pyInt_mb_zero (E : PyLib) (cfg : Dict) :
    pyInt E (pyOr (pyGet (dictSet cfg "max_blobs" (.num 0)) "max_blobs") (.num 0)) =
      some 0 := by
  rw [pyGet_dictSet_self]
  rfl

/-- Helper: the `int(cfg.get("max_blobs") or 0)` computation at a
positive natural. -/
theorem pyInt_mb_nat (E : PyLib) (cfg : Dict) (N : ℕ) (h : 0 < N) :
    pyInt E (pyOr (pyGet (dictSet cfg "max_blobs" (.num (N : ℚ))) "max_blobs") (.num 0)) =
      some (N : ℤ) := by
  rw [pyGet_dictSet_self]
  have ht : truthy (JVal.num (N : ℚ)) = true := by
    simp [truthy, Nat.cast_eq_zero]
    omega
  rw [pyOr, if_pos ht]
  simp [pyInt, Rat.num_natCast, Rat.den_natCast, Int.tdiv_one]

/-- Helper: the prefix cap at a positive bound, as the code applies it. -/
theorem cap_eq (l : List RecJ) (N : ℕ) (hN : 0 < N) :
    (if (N : ℤ) > 0 ∧ (l.length : ℤ) > (N : ℤ) then l.take (N : ℤ).toNat else l) =
      l.take N := by
  rw [Int.toNat_natCast]
  by_cases hl : (l.length : ℤ) > (N : ℤ)
  · rw [if_pos ⟨by exact_mod_cast hN, hl⟩]
  · rw [if_neg (fun hc => hl hc.2)]
    exact (List.take_of_length_le (by exact_mod_cast not_lt.mp hl)).symm

/-- Helper: the cap at 0 is no cap. -/
theorem cap_zero (l : List RecJ) :
    (if (0 : ℤ) > 0 ∧ (l.length : ℤ) > (0 : ℤ) then l.take (0 : ℤ).toNat else l) = l := by
  rw [if_neg (fun hc => absurd hc.1 (by norm_num))]

/-- C7: `max_blobs = 0` means no cap — the served list is exactly the
window-filtered record list and ingestion processes every listed blob —
while `max_blobs = N > 0` makes the served list the N-prefix of the
no-cap result (hence at most N entries) and makes ingestion process
only the first N blobs. -/
theorem c7_max_blobs_cap (E : PyLib) (now : ℚ) (records : List RecJ)
    (cfg : Dict) (blobs : List Blob) (N : ℕ) (hN : 0 < N) :
    (apply_window_and_limit_records E now records (dictSet cfg "max_blobs" (.num 0)) =
      (rngOf cfg).map (fun rng =>
        if (windowBounds E now cfg rng).1.isSome || (windowBounds E now cfg rng).2.isSome then
          records.filter (fun r =>
            record_in_window E r (windowBounds E now cfg rng).1 (windowBounds E now cfg rng).2)
        else records)) ∧
    (apply_window_and_limit_records E now records (dictSet cfg "max_blobs" (.num (N : ℚ))) =
      (apply_window_and_limit_records E now records (dictSet cfg "max_blobs" (.num 0))).map
        (List.take N)) ∧
    (∀ l, apply_window_and_limit_records E now records
        (dictSet cfg "max_blobs" (.num (N : ℚ))) = some l → l.length ≤ N) ∧
    (load_logs_from_blob E blobs (dictSet cfg "max_blobs" (.num (N : ℚ))) =
      load_logs_from_blob E (blobs.take N) (dictSet cfg "max_blobs" (.num (N : ℚ)))) ∧
    (∀ rows, credsOk cfg = true → ingestBlobs E blobs = .ok rows →
      load_logs_from_blob E blobs (dictSet cfg "max_blobs" (.num 0)) =
        .ok (buildTable E rows)) := by
  have hrng0 := rngOf_dictSet_mb cfg (JVal.num 0)
  have hrngN := rngOf_dictSet_mb cfg (JVal.num (N : ℚ))
  have hwb0 := windowBounds_dictSet_mb E now cfg (JVal.num 0)
  have hwbN := windowBounds_dictSet_mb E now cfg (JVal.num (N : ℚ))
  have hmb0 := pyInt_mb_zero E cfg
  have hmbN := pyInt_mb_nat E cfg N hN
  have main1 : apply_window_and_limit_records E now records
      (dictSet cfg "max_blobs" (.num 0)) =
      (rngOf cfg).map (fun rng =>
        if (windowBounds E now cfg rng).1.isSome || (windowBounds E now cfg rng).2.isSome then
          records.filter (fun r =>
            record_in_window E r (windowBounds E now cfg rng).1 (windowBounds E now cfg rng).2)
        else records) := by
    cases hr : rngOf cfg with
    | none => simp [apply_window_and_limit_records, hrng0, hr]
    | some rng =>
      simp only [apply_window_and_limit_records, hrng0, hr, hwb0, hmb0, Option.map_some']
      rw [cap_zero]
  have main2 : apply_window_and_limit_records E now records
      (dictSet cfg "max_blobs" (.num (N : ℚ))) =
      (apply_window_and_limit_records E now records
        (dictSet cfg "max_blobs" (.num 0))).map (List.take N) := by
    cases hr : rngOf cfg with
    | none => simp [apply_window_and_limit_records, hrng0, hrngN, hr]
    | some rng =>
      simp only [apply_window_and_limit_records, hrng0, hrngN, hr, hwb0, hwbN, hmb0,
        hmbN, Option.map_some']
      rw [cap_zero, cap_eq _ N hN]
  refine ⟨main1, main2, ?_, ?_, ?_⟩
  · intro l hl
    rw [main2] at hl
    cases hres : apply_window_and_limit_records E now records
        (dictSet cfg "max_blobs" (.num 0)) with
    | none => rw [hres] at hl; simp at hl
    | some l0 =>
      rw [hres] at hl
      simp only [Option.map_some', Option.some_inj] at hl
      rw [← hl]
      exact List.length_take_le N l0
  · rw [load_logs_from_blob, load_logs_from_blob, hmbN]
    by_cases hc : credsOk (dictSet cfg "max_blobs" (JVal.num (N : ℚ))) = true
    · simp only [hc, if_true]
      have hpos : (N : ℤ) > 0 := by exact_mod_cast hN
      rw [if_pos hpos, if_pos hpos, Int.toNat_natCast, List.take_take, min_self]
    · simp only [Bool.not_eq_true] at hc
      simp [hc]
  · intro rows hcred hok
    rw [load_logs_from_blob, hmb0]
    have hc0 : credsOk (dictSet cfg "max_blobs" (JVal.num 0)) = true := by
      rw [credsOk_dictSet_mb]; exact hcred
    simp [hc0, hok]

/-- C7 witness at a concrete input. -/
theorem c7_witness :
    apply_window_and_limit_records oracleNone 0 []
        (dictSet cfgCreds "max_blobs" (.num ((1 : ℕ) : ℚ))) =
      (apply_window_and_limit_records oracleNone 0 []
        (dictSet cfgCreds "max_blobs" (.num 0))).map (List.take 1) :=
  (c7_max_blobs_cap oracleNone 0 [] cfgCreds [] 1 (by norm_num)).2.1

/-- Helper: inserting a row's unseen keys preserves distinctness of the
column list. -/
theorem insertKeys_nodup (r : RecJ) (acc : List String) (h : acc.Nodup) :
    (insertKeys acc r).Nodup := by
  induction r generalizing acc with
  | nil => exact h
  | cons p r ih =>
    rw [insertKeys, List.foldl_cons]
    by_cases hp : p.1 ∈ acc
    · rw [if_pos hp]
      exact ih acc h
    · rw [if_neg hp]
      refine ih (acc ++ [p.1]) ?_
      rw [List.nodup_append]
      exact ⟨h, List.nodup_singleton _, by simpa using hp⟩

/-- Helper: the discovered column list never repeats a column. -/
theorem colsOf_nodup (rows : List RecJ) : (colsOf rows).Nodup := by
  have h : ∀ acc : List String, acc.Nodup → (rows.foldl insertKeys acc).Nodup := by
    induction rows with
    | nil => exact fun acc h => h
    | cons r rows ih =>
      intro acc h
      rw [List.foldl_cons]
      exact ih _ (insertKeys_nodup r acc h)
  exact h [] List.nodup_nil

/-- Helper: the preferred column list has no duplicates. -/
theorem preferredCols_nodup : preferredCols.Nodup := by decide

/-- Helper: the preferred-first projection is a rearrangement — it
preserves the column count when the columns are distinct. -/
theorem projCols_length (cols : List String) (h : cols.Nodup) :
    (projCols cols).length = cols.length := by
  rw [projCols, List.length_append]
  have hsplit : (cols.filter (fun c => (prefPresent cols).contains c)).length +
      (cols.filter (fun c => !((prefPresent cols).contains c))).length = cols.length := by
    have hp := (List.filter_append_perm (fun c => (prefPresent cols).contains c) cols).length_eq
    simpa [List.length_append] using hp
  have hpp : (prefPresent cols).length =
      (cols.filter (fun c => (prefPresent cols).contains c)).length := by
    have h1 : (prefPresent cols).Nodup := preferredCols_nodup.filter _
    have h2 : (cols.filter (fun c => (prefPresent cols).contains c)).Nodup := h.filter _
    rw [← List.toFinset_card_of_nodup h1, ← List.toFinset_card_of_nodup h2]
    congr 1
    ext a
    simp only [List.mem_toFinset, List.mem_filter, prefPresent, List.elem_iff]
    tauto
  rw [hpp]
  exact hsplit

/-- Helper: when the merged frame is non-empty, a candidate time column
exists and `_sort_ts` is not among the ingested keys, the cached table's
column list is the ingested columns plus a trailing `_sort_ts`. -/
theorem buildTable_cols (E : PyLib) (rows : List RecJ) (hne : rows ≠ [])
    (hc : ∃ c ∈ tsCandidates, c ∈ colsOf rows)
    (hs : "_sort_ts" ∉ colsOf rows) :
    (buildTable E rows).cols = colsOf rows ++ ["_sort_ts"] := by
  obtain ⟨c, hc1, hc2⟩ := hc
  have hfind : (tsCandidates.find? (fun c => (colsOf rows).contains c)).isSome := by
    rw [List.find?_isSome]
    exact ⟨c, hc1, List.elem_iff.mpr hc2⟩
  obtain ⟨c0, hc0⟩ := Option.isSome_iff_exists.mp hfind
  have hcontains : ((colsOf rows).contains "_sort_ts") = false :=
    Bool.eq_false_iff.mpr (fun h => hs (List.elem_iff.mp h))
  simp only [buildTable]
  rw [if_neg (by simp [hne]), hc0]
  simp [hcontains, hs]

/-- Helper: `_sort_ts` sits in the projected column list whenever it is
the trailing column (it is not a preferred column, so it stays in the
remainder part). -/
theorem sortTs_mem_projCols (cols : List String) :
    "_sort_ts" ∈ projCols (cols ++ ["_sort_ts"]) := by
  rw [projCols]
  apply List.mem_append_right
  rw [List.mem_filter]
  refine ⟨List.mem_append_right _ (by simp), ?_⟩
  have hnp : "_sort_ts" ∉ prefPresent (cols ++ ["_sort_ts"]) := by
    intro hmem
    exact absurd (List.mem_of_mem_filter hmem) (by decide)
  have hcf : (prefPresent (cols ++ ["_sort_ts"])).contains "_sort_ts" = false :=
    Bool.eq_false_iff.mpr (fun h => hnp (List.elem_iff.mp h))
  rw [Bool.not_eq_true', hcf]

/-- C10 amended: for every non-empty ingestion result with at least one
candidate timestamp column and no ingested `_sort_ts` key, the cached
table gains the synthetic trailing column `_sort_ts`; it always appears
in the bulk CSV/JSON export columns, and it appears in the `/data`
served column list provided the total column count (ingested columns
plus `_sort_ts`) does not exceed the 200-column cap — being the last
column, it is the first one the cap cuts. -/
theorem c10_amended (E : PyLib) (rows : List RecJ) (hne : rows ≠ [])
    (hc : ∃ c ∈ tsCandidates, c ∈ colsOf rows)
    (hs : "_sort_ts" ∉ colsOf rows) :
    (buildTable E rows).cols = colsOf rows ++ ["_sort_ts"] ∧
    "_sort_ts" ∈ exportCols (buildTable E rows) ∧
    ((colsOf rows).length + 1 ≤ 200 → "_sort_ts" ∈ servedCols (buildTable E rows)) := by
  have hcols := buildTable_cols E rows hne hc hs
  refine ⟨hcols, ?_, ?_⟩
  · rw [exportCols, hcols]
    exact sortTs_mem_projCols _
  · intro hlen
    have hnodup : (colsOf rows ++ ["_sort_ts"]).Nodup := by
      rw [List.nodup_append]
      exact ⟨colsOf_nodup rows, List.nodup_singleton _, by simpa using hs⟩
    have hplen : (projCols (colsOf rows ++ ["_sort_ts"])).length ≤ 200 := by
      rw [projCols_length _ hnodup, List.length_append]
      simpa using hlen
    rw [servedCols, hcols, List.take_of_length_le hplen]
    exact sortTs_mem_projCols _

/-- C10 amended, witness at a concrete one-row, one-column input. -/
theorem c10_witness :
    (buildTable oracleNone [[("ts", JVal.num 1)]]).cols =
      colsOf [[("ts", JVal.num 1)]] ++ ["_sort_ts"] ∧
    "_sort_ts" ∈ exportCols (buildTable oracleNone [[("ts", JVal.num 1)]]) ∧
    "_sort_ts" ∈ servedCols (buildTable oracleNone [[("ts", JVal.num 1)]]) := by
  have h := c10_amended oracleNone [[("ts", JVal.num 1)]] (by simp)
    ⟨"ts", by decide, by decide⟩ (by decide)
  exact ⟨h.1, h.2.1, h.2.2 (by decide)⟩

set_option maxRecDepth 100000 in
set_option maxHeartbeats 4000000 in
/-- C10 counterexample: a non-empty ingestion result with the candidate
column `ts` and 199 further distinct keys (200 ingested columns, no
`_sort_ts` key) satisfies every premise of the claim, the table gains
the trailing `_sort_ts` column and the bulk exports carry it — but the
`/data` column list is capped at 200 columns (`cols[:200]`), and with
201 total columns the trailing `_sort_ts` is cut from the served
column list, so the claim's "appears in the served column list" fails. -/
theorem c10_counterexample :
    wideRows ≠ [] ∧
    ("ts" ∈ tsCandidates ∧ "ts" ∈ colsOf wideRows) ∧
    "_sort_ts" ∉ colsOf wideRows ∧
    "_sort_ts" ∈ exportCols (buildTable oracleNone wideRows) ∧
    "_sort_ts" ∉ servedCols (buildTable oracleNone wideRows) := by
  have hne : wideRows ≠ [] := by simp [wideRows]
  have hts : "ts" ∈ colsOf wideRows := by decide
  have hnot : "_sort_ts" ∉ colsOf wideRows := by decide
  have hcols := buildTable_cols oracleNone wideRows hne ⟨"ts", by decide, hts⟩ hnot
  have hexp : "_sort_ts" ∈ exportCols (buildTable oracleNone wideRows) := by
    rw [exportCols, hcols]
    exact sortTs_mem_projCols _
  have hpp : prefPresent (colsOf wideRows ++ ["_sort_ts"]) = [] := by decide
  have hlen : (colsOf wideRows).length = 200 := by decide
  have hserved : "_sort_ts" ∉ servedCols (buildTable oracleNone wideRows) := by
    rw [servedCols, hcols, projCols, hpp]
    have hfilter : (colsOf wideRows ++ ["_sort_ts"]).filter
        (fun c => !(([] : List String).contains c)) = colsOf wideRows ++ ["_sort_ts"] :=
      List.filter_eq_self.mpr (fun a _ => rfl)
    rw [List.nil_append, hfilter,
      List.take_append_of_le_length (by simp [hlen]),
      List.take_of_length_le (by simp [hlen])]
    exact hnot
  exact ⟨hne, ⟨by decide, hts⟩, hnot, hexp, hserved⟩
